import Mathlib

/-!
Verification of the field-mapping and record-assembly engine of
`uccaas_csv_generator.py` (CTI spreadsheet → Meta import CSV generator).

The Python source is shallowly embedded: pandas cells are `Option String`
(`none` models NaN / an empty cell), openpyxl cell values are also
`Option String` (`none` models Python `None`), and each record-builder
loop body becomes a pure Lean function from the row data to the record
it appends (or `none` when the loop `continue`s past the row).
-/

/-- One row of the "User details" sheet, columns A,B,D,E,F,H,I,J,M,N,O,R
read through pandas (`none` = NaN cell). Field order: name, phone,
calling, ext, email, acct, dept, tz, template, mac, mlhg, lcc15. -/
structure UserRow where
  name : Option String
  phone : Option String
  calling : Option String
  ext : Option String
  email : Option String
  acct : Option String
  dept : Option String
  tz : Option String
  template : Option String
  mac : Option String
  mlhg : Option String
  lcc15 : Option String
deriving DecidableEq, Repr

/-- One row of the "Call flow" sheet window (rows 17..27), columns
B (name), C (distribution algorithm), D (pilot number), H (voicemail),
read through openpyxl (`none` = empty cell / Python `None`). -/
structure HuntRow where
  name : Option String
  dist : Option String
  pilot : Option String
  vm : Option String
deriving DecidableEq, Repr

/-- Python `str(x)` applied to a pandas cell: a NaN cell renders as
the string "nan". -/
def pyStr (x : Option String) : String := x.getD "nan"

/-- Python `str(x)` applied to an openpyxl cell value: `None` renders
as the string "None". -/
def ostr (x : Option String) : String := x.getD "None"

/-- The pattern `"" if pd.isna(x) else str(x)` used throughout the
subscriber builder. -/
def optStr (x : Option String) : String := x.getD ""

/-- Python `s.strip()`: drop leading and trailing whitespace (computed
over the character list so the kernel can evaluate it). -/
def pytrim (s : String) : String :=
  String.mk (((s.data.dropWhile Char.isWhitespace).reverse.dropWhile Char.isWhitespace).reverse)

/-- Python `s.lower()` (ASCII case folding over the character list). -/
def pylower (s : String) : String := String.mk (s.data.map Char.toLower)

/-- Python `s.upper()` (ASCII case folding over the character list). -/
def pyupper (s : String) : String := String.mk (s.data.map Char.toUpper)

/-- The pattern `"" if pd.isna(x) else str(x).strip()`. -/
def optTrim (x : Option String) : String :=
  match x with
  | none => ""
  | some s => pytrim s

/-- Python truthiness of an openpyxl string cell: falsy iff `None` or `""`
(the `if not mlg_name: continue` checks). -/
def truthy (x : Option String) : Bool :=
  match x with
  | none => false
  | some s => s != ""

/-- The three template labels excluded by the subscriber loop:
`["None", "Reserve Number", "None | Reserve Number"]`. -/
def exclusionLabels : List String := ["None", "Reserve Number", "None | Reserve Number"]

/-- The subscriber-loop skip condition (line "Skip blank phone or
reserved/none templates"): `pd.isna(phone) or str(template_raw).strip() in [...]`. -/
def skipUserRow (row : UserRow) : Prop :=
  row.phone = none ∨ pytrim (pyStr row.template) ∈ exclusionLabels

instance (row : UserRow) : Decidable (skipUserRow row) := by
  unfold skipUserRow; infer_instance

/-- The fixed 9-entry template mapping table of `convert_template`. -/
def templateMapping : List (String × String) :=
  [("UCaaS|Link Basic Auto-Attendant", "_AA_Easy"),
   ("UCaaS|Link Premium Auto-Attendant", "_AA_Premium"),
   ("UCaaS|Link Lite", "_Lite"),
   ("UCaaS|Link Standard", "_STD"),
   ("UCaaS|Link Complete", "_Complete"),
   ("UCaaS|Link Complete (HIPPA)", "Complete_HIPPA"),
   ("UCaaS|Link Complete (No Voicemail)", "_Complete_NoVM"),
   ("UCaaS|Link Complete ContactCenter Agent", "_Complete"),
   ("UCaaS|Link Complete ContactCenter Manager", "_Complete")]

/-- `convert_template(template_name, region)`: NaN input gives "";
otherwise the trimmed label is looked up in the table and the result is
`region + suffix` on a hit, "" on a miss. -/
def convert_template (template_name : Option String) (region : String) : String :=
  match template_name with
  | none => ""
  | some t =>
    let s := pytrim t
    match templateMapping.find? (fun p => p.1 == s) with
    | some p => region ++ p.2
    | none => ""

/-- `re.sub(r"\D", "", str(s))`: keep only the decimal digits. -/
def only_digits (s : String) : String := String.mk (s.data.filter Char.isDigit)

/-- `npanxx_from_number(phone)`: digits only, drop a leading "1" from an
11-digit number, then require at least 6 digits and split npa/nxx. -/
def npanxx_from_number (phone : String) : Option (String × String × String) :=
  let d0 := only_digits phone
  let d := if d0.length = 11 ∧ d0.take 1 = "1" then d0.drop 1 else d0
  if 6 ≤ d.length then
    some (d.take 3, (d.drop 3).take 3, d.take 3 ++ (d.drop 3).take 3)
  else none

/-- Helper for `normalize_rc`: `re.sub(r"\s+", " ", ·)` over the character
list, collapsing each maximal whitespace run to a single space. The flag
records whether the previous character was whitespace. -/
def collapseWsAux : List Char → Bool → List Char
  | [], _ => []
  | c :: cs, prevWs =>
    if c.isWhitespace then
      if prevWs then collapseWsAux cs true else ' ' :: collapseWsAux cs true
    else c :: collapseWsAux cs false

/-- `normalize_rc(s)`: `None` gives "", else collapse whitespace in
`s.strip().upper()`. -/
def normalize_rc (s : Option String) : String :=
  match s with
  | none => ""
  | some t => String.mk (collapseWsAux (pyupper (pytrim t)).data false)

/-- `eng_df.iat[r, i] if i < eng_df.shape[1] else ""` for one row of the
Engineering DataFrame (a row is a list of string cells, `none` = NaN). -/
def engCell (row : List (Option String)) (i : Nat) : Option String :=
  match row.get? i with
  | some v => v
  | none => some ""

/-- The row scan of `eng_value_for_rate_center`: first row whose
normalized column O (index 14) is non-empty and equals `wanted` yields
column N (index 13), rendered "" when NaN or the literal "nan". -/
def engScan (wanted : String) : List (List (Option String)) → String
  | [] => ""
  | row :: rest =>
    let val_o := normalize_rc (engCell row 14)
    if val_o ≠ "" ∧ val_o = wanted then
      match engCell row 13 with
      | none => ""
      | some v => if pylower v = "nan" then "" else v
    else engScan wanted rest

/-- `eng_value_for_rate_center(eng_df, rate_centre)`. -/
def eng_value_for_rate_center (eng : List (List (Option String))) (rate_centre : String) : String :=
  engScan (normalize_rc (some rate_centre)) eng

/-- Outcome of the HTTP GET + XML parse inside `lookup_rc_lata`:
`failure` collapses every caught exception (network error, timeout,
non-2xx via `raise_for_status`, XML parse failure); `ok rcTag lataTag`
carries the text of the `rc` / `lata` elements (`none` = tag absent). -/
inductive FetchResult where
  | failure : FetchResult
  | ok : Option String → Option String → FetchResult
deriving DecidableEq, Repr

/-- Python `x or None` on a string: "" becomes `None`. -/
def orNone (s : String) : Option String := if s = "" then none else some s

/-- `lookup_rc_lata(npa, nxx)` body, with the transport and XML layer
injected as `fetch`: empty npa/nxx short-circuit to `(None, None)`, any
caught exception gives `(None, None)`, and on success each tag text is
stripped and "" is collapsed to `None`. -/
def lookup_rc_lata (fetch : String → String → FetchResult) (npa nxx : String) :
    Option String × Option String :=
  if npa = "" ∨ nxx = "" then (none, none)
  else
    match fetch npa nxx with
    | .failure => (none, none)
    | .ok rcTag lataTag =>
      (match rcTag with
       | none => none
       | some t => orNone (pytrim t),
       match lataTag with
       | none => none
       | some t => orNone (pytrim t))

/-- The `@st.cache_data` memoization table for `lookup_rc_lata`, keyed by
the `(npa, nxx)` arguments. -/
abbrev RCCache := List ((String × String) × (Option String × Option String))

/-- `lookup_rc_lata` as called through `@st.cache_data`: a prior entry for
the same `(npa, nxx)` key is returned as-is (0 body executions); on a miss
the body runs once and its result is stored. The `Nat` counts body
executions, i.e. network calls issued by this invocation. -/
def cached_lookup (fetch : String → String → FetchResult) (cache : RCCache)
    (npa nxx : String) : (Option String × Option String) × RCCache × Nat :=
  match cache.find? (fun e => e.1.1 == npa && e.1.2 == nxx) with
  | some e => (e.2, cache, 0)
  | none =>
    let r := lookup_rc_lata fetch npa nxx
    (r, ((npa, nxx), r) :: cache, 1)

/-- `lcc2 = lata or ""` in the subscriber loop. -/
def lcc2_of (lata : Option String) : String := lata.getD ""

/-- `lcc1 = eng_value_for_rate_center(eng_df, rc) if rc else ""` in the
subscriber loop. -/
def lcc1_of (eng : List (List (Option String))) (rc : Option String) : String :=
  match rc with
  | none => ""
  | some r => if r = "" then "" else eng_value_for_rate_center eng r

/-- `values + [""] * max(0, w - len(values))` then `[:w]`. -/
def padTo (w : Nat) (values : List String) : List String :=
  (values ++ List.replicate (w - values.length) "").take w

/-- Width of every Business-Group-section record (`BG_COLS = 16`). -/
def BG_COLS : Nat := 16

/-- Width of every Seats-section record (`SEATS_COLS = 32`). -/
def SEATS_COLS : Nat := 32

/-- `pad_bg(values)`: pad/truncate to 16 fields. -/
def pad_bg (values : List String) : List String := padTo BG_COLS values

/-- `pad27(values)`: pad/truncate to 32 fields. -/
def pad27 (values : List String) : List String := padTo SEATS_COLS values

/-- The 31 field values appended for one eligible subscriber row
(lines `sub_rows.append(pad27([...]))` of the subscriber loop), before
`pad27`. `rcLookup` is the memoized `lookup_rc_lata` seen as a pure
function of `(npa, nxx)` for the run. -/
def subscriberFields (region customer : String) (eng : List (List (Option String)))
    (rcLookup : String → String → Option String × Option String) (row : UserRow) : List String :=
  let phone := pyStr row.phone
  let template := convert_template row.template region
  let is_aa : Bool := template == region ++ "_AA_Easy" || template == region ++ "_AA_Premium"
  let line_state_monitor := if is_aa then "" else "TRUE"
  let calling_name_delivery := if is_aa then "" else optStr row.name
  let intra_bg_calls := if is_aa then "" else "TRUE"
  let acct_value :=
    if pyStr row.acct ∈ ["Location Admin", "Company Admin"] then "Administrator" else "Normal"
  let tz_cfs := optStr row.tz
  let lcc15 := optTrim row.lcc15
  let npanxx := npanxx_from_number phone
  let lcc3 := match npanxx with
    | some (npa, _, _) => npa
    | none => ""
  let rcLata := match npanxx with
    | some (npa, nxx, _) => rcLookup npa nxx
    | none => (none, none)
  let lcc2 := lcc2_of rcLata.2
  let lcc1 := lcc1_of eng rcLata.1
  pad27 ["CommandLink", "CommandLink_vEAS_LV",
    phone, template, customer, customer,
    "Standard Subscribers",
    optStr row.name, optStr row.name,
    "", "",
    "eng", "defaultGroup", "",
    acct_value, acct_value,
    line_state_monitor, calling_name_delivery,
    optStr row.email,
    tz_cfs, tz_cfs,
    optStr row.calling,
    phone, phone,
    optStr row.dept, optStr row.dept,
    intra_bg_calls,
    lcc1, lcc2, lcc3, lcc15]

/-- The subscriber loop body for one row: `continue` on the skip
condition, else append the padded record. -/
def subscriberRecord (region customer : String) (eng : List (List (Option String)))
    (rcLookup : String → String → Option String × Option String) (row : UserRow) :
    Option (List String) :=
  if skipUserRow row then none
  else some (subscriberFields region customer eng rcLookup row)

/-- The Managed Device loop body for one row: skipped when phone is NaN,
MAC is NaN, or MAC strips to ""; `macTrusted` is the
`mac_trusted_until_str()` timestamp computed at generation time. -/
def managedDeviceRecord (customer macTrusted : String) (row : UserRow) :
    Option (List String) :=
  if row.phone = none ∨ row.mac = none ∨ pytrim (pyStr row.mac) = "" then none
  else some (pad27 ["CommandLink", customer, pyStr row.mac, "TRUE", pyStr row.phone,
    macTrusted, "2", "Determined by Endpoint Pack", ""])

/-- The Intercom Code Range loop body for one row: skipped when phone is
NaN, extension is NaN, or extension strips to "". -/
def intercomRecord (customer : String) (row : UserRow) : Option (List String) :=
  if row.phone = none ∨ row.ext = none ∨ pytrim (pyStr row.ext) = "" then none
  else some (pad27 ["CommandLink", "CommandLink_vEAS_LV", customer,
    pyStr row.ext, pyStr row.ext, pyStr row.phone])

/-- The MLHG member token `f"{{'{str(num)}';'FALSE'}}"`. -/
def memberToken (n : String) : String := "\x7b\x27" ++ n ++ "\x27;\x27FALSE\x27\x7d"

/-- The member-collection loop of the MLHG builder: every user row (in
source order) whose trimmed column-O label equals the trimmed group name
and whose phone is not NaN contributes one member token. -/
def mlhgMembers (users : List UserRow) (groupName : String) : List String :=
  users.filterMap (fun u =>
    if pytrim (pyStr u.mlhg) = pytrim groupName ∧ u.phone.isSome
    then some (memberToken (pyStr u.phone)) else none)

/-- The MLHG loop body for one Call-flow row: skipped when the name cell
is falsy; the distribution algorithm is ""-for-NaN, stripped, and
"Ring All" is rewritten to "Ring all"; hunt-on-no-answer is the literal
"FALSE". -/
def mlhgRecord (customer : String) (users : List UserRow) (h : HuntRow) :
    Option (List String) :=
  if truthy h.name then
    let nameStr := ostr h.name
    let dist_alg0 := optTrim h.dist
    let dist_alg_clean := if dist_alg0 = "Ring All" then "Ring all" else dist_alg0
    some (pad27 ["CommandLink", customer, nameStr,
      String.intercalate ";" (mlhgMembers users nameStr), dist_alg_clean, "FALSE"])
  else none

/-- The MLHG Pilot loop body for one Call-flow row: skipped when the name
or the pilot phone number cell is falsy; the template depends on the
voicemail flag being exactly "yes" after strip+lower. -/
def mlhgPilotRecord (region customer : String) (h : HuntRow) : Option (List String) :=
  if truthy h.name && truthy h.pilot then
    let nameStr := ostr h.name
    let pilot_template :=
      if pylower (pytrim (ostr h.vm)) = "yes" then region ++ "_MLHG_Pilot"
      else region ++ "_MLHG_Pilot_NoVM"
    some (pad27 ["CommandLink", "CommandLink_vEAS_LV", customer, nameStr, ostr h.pilot,
      pilot_template, nameStr ++ " Pilot", nameStr ++ " Pilot", "*", "*", "defaultGroup"])
  else none

/-- One number-pool range scan (`B9:B100` of User details, `D17:D27` of
Call flow): every truthy cell contributes `str(c.value).strip()`. -/
def collectPool (cells : List (Option String)) : List String :=
  cells.filterMap (fun c =>
    match c with
    | none => none
    | some v => if v = "" then none else some (pytrim v))

/-- `dict.fromkeys` iteration with an explicit seen-set accumulator:
keeps the first occurrence of each string, drops later duplicates. -/
def dedupFirstAux : List String → List String → List String
  | _, [] => []
  | seen, x :: xs =>
    if x ∈ seen then dedupFirstAux seen xs
    else x :: dedupFirstAux (x :: seen) xs

/-- `list(dict.fromkeys(l))`: first-occurrence de-duplication. -/
def dedupFirst (l : List String) : List String := dedupFirstAux [] l

/-- `numbers = [n for n in dict.fromkeys(numbers) if n]` where `numbers`
is the subscriber pool followed by the hunt-group-pilot pool. -/
def numbersFrom (cellsB cellsD : List (Option String)) : List String :=
  (dedupFirst (collectPool cellsB ++ collectPool cellsD)).filter (fun n => n != "")

/-- One Number Block data row. -/
def numberBlockRecord (customer num : String) : List String :=
  pad_bg ["CommandLink", customer, num, "1", "Standard Subscribers"]

/-- The Number Block section data rows: one per entry of `numbers`. -/
def numberBlockRows (customer : String) (cellsB cellsD : List (Option String)) :
    List (List String) :=
  (numbersFrom cellsB cellsD).map (fun num => numberBlockRecord customer num)

/-- One Department data row. -/
def departmentRecord (customer dept : String) : List String :=
  pad_bg ["CommandLink", "CommandLink_vEAS_LV", customer, dept]

/-- `_norm(name)`: `"".join(name.lower().split())` — lower-case, then
remove all whitespace (split on whitespace runs and join with nothing). -/
def _norm (name : String) : String :=
  String.mk ((pylower name).data.filter (fun c => !c.isWhitespace))

/-- `get_sheet(wb, wanted)`: first sheet whose normalized name equals the
normalized wanted name; otherwise the `KeyError` carrying the wanted name
and the full list of sheet names. A workbook is an association list from
sheet name to sheet. -/
def get_sheet {α : Type} (wb : List (String × α)) (wanted : String) :
    Except (String × List String) α :=
  match wb.find? (fun p => _norm p.1 == _norm wanted) with
  | some p => Except.ok p.2
  | none => Except.error (wanted, wb.map (fun p => p.1))

/-- The `try` block of `main`: resolve the three required sheets in
order; the first failure propagates. -/
def resolveRequired {α : Type} (wb : List (String × α)) :
    Except (String × List String) (α × α × α) := do
  let u ← get_sheet wb "User details"
  let e ← get_sheet wb "Engineering"
  let c ← get_sheet wb "Call flow"
  return (u, e, c)

/-- The `try/except KeyError: st.error(...); st.stop()` structure of
`main`: on a resolution failure the script stops and no output of any
kind is produced (`none`); otherwise the rest of the script (`build`,
abstracting lines 128-406) runs on the three resolved sheets. -/
def runMain {α β : Type} (wb : List (String × α)) (build : α → α → α → β) : Option β :=
  match resolveRequired wb with
  | .error _ => none
  | .ok (u, e, c) => some (build u e c)

/-- Formalization of claim C4's wording for the member list: "every
UserRow whose hunt-group-membership label (trimmed) exactly equals the
group name (trimmed), each formatted as the literal token
\x7b'<number>';'FALSE'\x7d" — with no condition on the phone cell. -/
def mlhgMembersSpec (users : List UserRow) (groupName : String) : List String :=
  users.filterMap (fun u =>
    if pytrim (pyStr u.mlhg) = pytrim groupName
    then some (memberToken (pyStr u.phone)) else none)

/-- Formalization of claim C4's wording for the distribution algorithm:
"the label \"Ring All\" is rewritten to \"Ring all\" (no other
normalization)". -/
def distAlgSpec (label : String) : String :=
  if label = "Ring All" then "Ring all" else label

/-! ## Helper lemmas -/

/-- Unfolding equation for `convert_template` on a present cell. -/
lemma convert_template_eq (label region : String) :
    convert_template (some label) region =
      match templateMapping.find? (fun p => p.1 == pytrim label) with
      | some p => region ++ p.2
      | none => "" := rfl

/-- `get_sheet` fails with the wanted name and the full sheet-name list
when no sheet name matches after normalization. -/
lemma get_sheet_err {α : Type} (wb : List (String × α)) (wanted : String)
    (h : ∀ p ∈ wb, _norm p.1 ≠ _norm wanted) :
    get_sheet wb wanted = Except.error (wanted, wb.map (fun p => p.1)) := by
  have hf : wb.find? (fun p => _norm p.1 == _norm wanted) = none :=
    List.find?_eq_none.mpr (fun x hx => by simpa using h x hx)
  unfold get_sheet
  rw [hf]

lemma mem_dedupFirstAux (l : List String) : ∀ (seen : List String) (a : String),
    a ∈ dedupFirstAux seen l ↔ a ∈ l ∧ a ∉ seen := by
  induction l with
  | nil => intro seen a; simp [dedupFirstAux]
  | cons x xs ih =>
    intro seen a
    by_cases hx : x ∈ seen
    · rw [show dedupFirstAux seen (x :: xs) = dedupFirstAux seen xs from by
        simp [dedupFirstAux, hx]]
      rw [ih]
      constructor
      · rintro ⟨ha, hs⟩
        exact ⟨List.mem_cons_of_mem _ ha, hs⟩
      · rintro ⟨ha, hs⟩
        rcases List.mem_cons.mp ha with h | h
        · subst h; exact absurd hx hs
        · exact ⟨h, hs⟩
    · rw [show dedupFirstAux seen (x :: xs) = x :: dedupFirstAux (x :: seen) xs from by
        simp [dedupFirstAux, hx]]
      simp only [List.mem_cons, ih]
      constructor
      · rintro (rfl | ⟨ha, hs⟩)
        · exact ⟨Or.inl rfl, hx⟩
        · exact ⟨Or.inr ha, fun hm => hs (Or.inr hm)⟩
      · rintro ⟨ha | ha, hs⟩
        · exact Or.inl ha
        · by_cases hax : a = x
          · exact Or.inl hax
          · refine Or.inr ⟨ha, fun hm => ?_⟩
            rcases hm with h | h
            · exact hax h
            · exact hs h

lemma nodup_dedupFirstAux (l : List String) : ∀ seen, (dedupFirstAux seen l).Nodup := by
  induction l with
  | nil => intro seen; simp [dedupFirstAux]
  | cons x xs ih =>
    intro seen
    by_cases hx : x ∈ seen
    · rw [show dedupFirstAux seen (x :: xs) = dedupFirstAux seen xs from by
        simp [dedupFirstAux, hx]]
      exact ih seen
    · rw [show dedupFirstAux seen (x :: xs) = x :: dedupFirstAux (x :: seen) xs from by
        simp [dedupFirstAux, hx]]
      refine List.nodup_cons.mpr ⟨fun hm => ?_, ih _⟩
      exact ((mem_dedupFirstAux xs (x :: seen) x).mp hm).2 (List.mem_cons_self x seen)

lemma pairwise_indexOf_dedupFirstAux (l : List String) : ∀ seen,
    (dedupFirstAux seen l).Pairwise (fun a b => l.indexOf a < l.indexOf b) := by
  induction l with
  | nil => intro seen; simp [dedupFirstAux]
  | cons x xs ih =>
    intro seen
    by_cases hx : x ∈ seen
    · rw [show dedupFirstAux seen (x :: xs) = dedupFirstAux seen xs from by
        simp [dedupFirstAux, hx]]
      refine List.Pairwise.imp_of_mem ?_ (ih seen)
      intro a b ha hb r
      have ha' := (mem_dedupFirstAux xs seen a).mp ha
      have hb' := (mem_dedupFirstAux xs seen b).mp hb
      have hax : x ≠ a := fun h => ha'.2 (h ▸ hx)
      have hbx : x ≠ b := fun h => hb'.2 (h ▸ hx)
      rw [List.indexOf_cons_ne _ hax, List.indexOf_cons_ne _ hbx]
      exact Nat.succ_lt_succ r
    · rw [show dedupFirstAux seen (x :: xs) = x :: dedupFirstAux (x :: seen) xs from by
        simp [dedupFirstAux, hx]]
      refine List.pairwise_cons.mpr ⟨fun b hb => ?_, ?_⟩
      · have hb' := (mem_dedupFirstAux xs (x :: seen) b).mp hb
        have hbx : x ≠ b := fun h => hb'.2 (h ▸ List.mem_cons_self x seen)
        rw [List.indexOf_cons_self, List.indexOf_cons_ne _ hbx]
        exact Nat.succ_pos _
      · refine List.Pairwise.imp_of_mem ?_ (ih (x :: seen))
        intro a b ha hb r
        have ha' := (mem_dedupFirstAux xs (x :: seen) a).mp ha
        have hb' := (mem_dedupFirstAux xs (x :: seen) b).mp hb
        have hax : x ≠ a := fun h => ha'.2 (h ▸ List.mem_cons_self x seen)
        have hbx : x ≠ b := fun h => hb'.2 (h ▸ List.mem_cons_self x seen)
        rw [List.indexOf_cons_ne _ hax, List.indexOf_cons_ne _ hbx]
        exact Nat.succ_lt_succ r

lemma padTo_length (w : Nat) (vs : List String) : (padTo w vs).length = w := by
  have h : w ≤ vs.length + (w - vs.length) := by omega
  simp [padTo, List.length_take, List.length_append, List.length_replicate,
    Nat.min_eq_left h]

lemma padTo_of_le (w : Nat) (vs : List String) (h : vs.length ≤ w) :
    padTo w vs = vs ++ List.replicate (w - vs.length) "" := by
  apply List.take_of_length_le
  simp only [List.length_append, List.length_replicate]
  omega

lemma padTo_of_ge (w : Nat) (vs : List String) (h : w ≤ vs.length) :
    padTo w vs = vs.take w := by
  simp [padTo, Nat.sub_eq_zero_of_le h]

/-! ## Claims -/

/-- Claim C2: `convert_template` returns "" for a NaN label and for every
trimmed label outside the 9-entry mapping table, and returns the region
code concatenated with the tabulated suffix for every label whose trimmed
form is a key of the table (the "UCaaS|Link Complete (HIPPA)" entry
carries the literal suffix "Complete_HIPPA", i.e. no underscore between
region and suffix). -/
theorem C2_convert_template (label region : String) :
    convert_template none region = "" ∧
    ((∀ p ∈ templateMapping, p.1 ≠ pytrim label) →
      convert_template (some label) region = "") ∧
    (∀ p ∈ templateMapping, p.1 = pytrim label →
      convert_template (some label) region = region ++ p.2) := by
  refine ⟨rfl, fun h => ?_, fun p hp => ?_⟩
  · have hf : templateMapping.find? (fun p => p.1 == pytrim label) = none :=
      List.find?_eq_none.mpr (fun x hx => by simpa using h x hx)
    rw [convert_template_eq, hf]
  · revert hp
    have hml : p ∈ templateMapping → p.1 = pytrim label →
        convert_template (some label) region = region ++ p.2 := by
      intro hp heq
      fin_cases hp <;> (rw [convert_template_eq, ← heq]; rfl)
    exact hml

/-- Witness for C2 at concrete labels: an unknown plan label degrades to
"", and "UCaaS|Link Standard" with region "CH" yields "CH_STD". -/
theorem C2_convert_template_witness :
    convert_template (some "Unknown Plan") "CH" = "" ∧
    convert_template (some "UCaaS|Link Standard") "CH" = "CH_STD" :=
  ⟨(C2_convert_template "Unknown Plan" "CH").2.1 (by decide),
   (C2_convert_template "UCaaS|Link Standard" "CH").2.2
     ("UCaaS|Link Standard", "_STD") (by decide) (by decide)⟩

/-- Claim C9 counterexample: the Number Block record kind and the
Department record kind are distinct record kinds yet both have width 16
(both are padded by `pad_bg`), so "no two record kinds share the same
width" fails on the code. -/
theorem C9_counterexample :
    (numberBlockRecord "Acme" "5551112222").length = 16 ∧
    (departmentRecord "Acme" "Sales").length = 16 := by
  constructor <;> rfl

/-- Claim C9 as amended: every record is padded or truncated to its
section-specific fixed width (16 fields for the Business-Group-section
kinds via `pad_bg`, 32 fields for the Seats-section kinds via `pad27`),
padding right-fills with empty strings, truncation drops fields from the
right only when the value list exceeds the width, and the two section
widths differ — but record kinds within the same section share a width. -/
theorem C9_padding_amended (vs : List String) :
    (pad_bg vs).length = BG_COLS ∧
    (pad27 vs).length = SEATS_COLS ∧
    (vs.length ≤ BG_COLS → pad_bg vs = vs ++ List.replicate (BG_COLS - vs.length) "") ∧
    (BG_COLS ≤ vs.length → pad_bg vs = vs.take BG_COLS) ∧
    (vs.length ≤ SEATS_COLS → pad27 vs = vs ++ List.replicate (SEATS_COLS - vs.length) "") ∧
    (SEATS_COLS ≤ vs.length → pad27 vs = vs.take SEATS_COLS) ∧
    BG_COLS ≠ SEATS_COLS :=
  ⟨padTo_length BG_COLS vs, padTo_length SEATS_COLS vs,
   padTo_of_le BG_COLS vs, padTo_of_ge BG_COLS vs,
   padTo_of_le SEATS_COLS vs, padTo_of_ge SEATS_COLS vs,
   by decide⟩

/-- Witness for C9 at a concrete one-field record: padded to width 16
by right-filling with 15 empty strings. -/
theorem C9_padding_witness :
    (["x"] : List String).length ≤ BG_COLS ∧
    pad_bg ["x"] = ["x"] ++ List.replicate (BG_COLS - (["x"] : List String).length) "" :=
  ⟨by decide, (C9_padding_amended ["x"]).2.2.1 (by decide)⟩

/-- Claim C10: a Call-flow row with a truthy (non-empty) name but a falsy
(empty or absent) pilot phone number still yields an MLHG membership
record, while the MLHG Pilot builder skips it. -/
theorem C10_blank_pilot_mlhg (customer region : String) (users : List UserRow) (h : HuntRow)
    (hname : truthy h.name = true) (hpilot : truthy h.pilot = false) :
    (mlhgRecord customer users h).isSome = true ∧
    mlhgPilotRecord region customer h = none := by
  constructor
  · simp [mlhgRecord, hname]
  · simp [mlhgPilotRecord, hpilot]

/-- Witness for C10 at a concrete hunt-group row with name "Sales Queue"
and no pilot number. -/
theorem C10_blank_pilot_mlhg_witness :
    truthy (HuntRow.mk (some "Sales Queue") (some "Ring All") none (some "Yes")).name = true ∧
    truthy (HuntRow.mk (some "Sales Queue") (some "Ring All") none (some "Yes")).pilot = false ∧
    ((mlhgRecord "Acme" [] (HuntRow.mk (some "Sales Queue") (some "Ring All") none
        (some "Yes"))).isSome = true ∧
     mlhgPilotRecord "CH" "Acme" (HuntRow.mk (some "Sales Queue") (some "Ring All") none
        (some "Yes")) = none) :=
  ⟨by decide, by decide,
   C10_blank_pilot_mlhg "Acme" "CH" []
     (HuntRow.mk (some "Sales Queue") (some "Ring All") none (some "Yes"))
     (by decide) (by decide)⟩

/-- Claim C1 counterexample: a row whose trimmed template label is the
exclusion literal "None" (with phone, MAC address and extension all
present) is NOT skipped by the Managed Device and Intercom Code Range
builders — both emit a record for it — refuting "no output record of any
kind is emitted for that row". -/
theorem C1_counterexample :
    pytrim (pyStr (UserRow.mk (some "Jane") (some "5551234567") none (some "101") none none
      none none (some "None") (some "AA:BB:CC:DD:EE:FF") none none).template) ∈
      exclusionLabels ∧
    (managedDeviceRecord "Acme" "1/1/25 11:59:59 pm"
      (UserRow.mk (some "Jane") (some "5551234567") none (some "101") none none
        none none (some "None") (some "AA:BB:CC:DD:EE:FF") none none)).isSome = true ∧
    (intercomRecord "Acme"
      (UserRow.mk (some "Jane") (some "5551234567") none (some "101") none none
        none none (some "None") (some "AA:BB:CC:DD:EE:FF") none none)).isSome = true := by
  refine ⟨by decide, by decide, by decide⟩

/-- Claim C1 as amended: a row with an empty (NaN) phone number is
skipped by all three builders (Subscriber, Managed Device, Intercom Code
Range); the template-label exclusion ("None", "Reserve Number",
"None | Reserve Number") is applied only by the Subscriber builder, while
Managed Device and Intercom Code Range apply only their own presence
checks. -/
theorem C1_row_filter_amended (region customer macTrusted : String)
    (eng : List (List (Option String)))
    (rcLookup : String → String → Option String × Option String) (row : UserRow) :
    (row.phone = none →
      subscriberRecord region customer eng rcLookup row = none ∧
      managedDeviceRecord customer macTrusted row = none ∧
      intercomRecord customer row = none) ∧
    (pytrim (pyStr row.template) ∈ exclusionLabels →
      subscriberRecord region customer eng rcLookup row = none) := by
  refine ⟨fun hp => ⟨?_, ?_, ?_⟩, fun ht => ?_⟩
  · simp [subscriberRecord, skipUserRow, hp]
  · simp [managedDeviceRecord, hp]
  · simp [intercomRecord, hp]
  · simp [subscriberRecord, skipUserRow, ht]

/-- Witness for C1 as amended: a concrete row with a NaN phone produces
no Subscriber, Managed Device or Intercom record, and a concrete row with
template "Reserve Number" produces no Subscriber record. -/
theorem C1_row_filter_witness :
    (UserRow.mk none none none none none none none none (some "UCaaS|Link Standard")
      (some "AA:BB") (some "G") none).phone = none ∧
    (subscriberRecord "CH" "Acme" [] (fun _ _ => (none, none))
        (UserRow.mk none none none none none none none none (some "UCaaS|Link Standard")
          (some "AA:BB") (some "G") none) = none ∧
      managedDeviceRecord "Acme" "1/1/25 11:59:59 pm"
        (UserRow.mk none none none none none none none none (some "UCaaS|Link Standard")
          (some "AA:BB") (some "G") none) = none ∧
      intercomRecord "Acme"
        (UserRow.mk none none none none none none none none (some "UCaaS|Link Standard")
          (some "AA:BB") (some "G") none) = none) ∧
    pytrim (pyStr (UserRow.mk none (some "5550001111") none none none none none none
      (some " Reserve Number ") none none none).template) ∈ exclusionLabels ∧
    subscriberRecord "CH" "Acme" [] (fun _ _ => (none, none))
      (UserRow.mk none (some "5550001111") none none none none none none
        (some " Reserve Number ") none none none) = none :=
  ⟨rfl,
   (C1_row_filter_amended "CH" "Acme" "1/1/25 11:59:59 pm" [] (fun _ _ => (none, none))
     (UserRow.mk none none none none none none none none (some "UCaaS|Link Standard")
       (some "AA:BB") (some "G") none)).1 rfl,
   by decide,
   (C1_row_filter_amended "CH" "Acme" "1/1/25 11:59:59 pm" [] (fun _ _ => (none, none))
     (UserRow.mk none (some "5550001111") none none none none none none
       (some " Reserve Number ") none none none)).2 (by decide)⟩

/-- Claim C3: for every eligible row the Subscriber record has its two
account-type fields (indices 14, 15) equal to "Administrator" exactly
when the raw account-type label is "Location Admin" or "Company Admin"
and "Normal" otherwise; its charge-number (22) and
emergency-calling-number (23) fields both equal the row's own phone
number; and the single source name is written verbatim into both the CFS
(7) and EAS (8) name fields. -/
theorem C3_subscriber_fields (region customer : String) (eng : List (List (Option String)))
    (rcLookup : String → String → Option String × Option String) (row : UserRow)
    (helig : ¬ skipUserRow row) :
    subscriberRecord region customer eng rcLookup row =
      some (subscriberFields region customer eng rcLookup row) ∧
    (((subscriberFields region customer eng rcLookup row).getD 14 "" = "Administrator" ∧
      (subscriberFields region customer eng rcLookup row).getD 15 "" = "Administrator") ↔
      (pyStr row.acct = "Location Admin" ∨ pyStr row.acct = "Company Admin")) ∧
    (¬ (pyStr row.acct = "Location Admin" ∨ pyStr row.acct = "Company Admin") →
      (subscriberFields region customer eng rcLookup row).getD 14 "" = "Normal" ∧
      (subscriberFields region customer eng rcLookup row).getD 15 "" = "Normal") ∧
    (subscriberFields region customer eng rcLookup row).getD 22 "" = pyStr row.phone ∧
    (subscriberFields region customer eng rcLookup row).getD 23 "" = pyStr row.phone ∧
    (subscriberFields region customer eng rcLookup row).getD 7 "" = optStr row.name ∧
    (subscriberFields region customer eng rcLookup row).getD 8 "" = optStr row.name := by
  have hrec : subscriberRecord region customer eng rcLookup row =
      some (subscriberFields region customer eng rcLookup row) := by
    simp [subscriberRecord, helig]
  have h14 : (subscriberFields region customer eng rcLookup row).getD 14 "" =
      (if pyStr row.acct ∈ ["Location Admin", "Company Admin"]
       then "Administrator" else "Normal") := rfl
  have h15 : (subscriberFields region customer eng rcLookup row).getD 15 "" =
      (if pyStr row.acct ∈ ["Location Admin", "Company Admin"]
       then "Administrator" else "Normal") := rfl
  refine ⟨hrec, ?_, ?_, rfl, rfl, rfl, rfl⟩
  · rw [h14, h15]
    constructor
    · intro hadm
      by_contra hc
      have hmem : pyStr row.acct ∉ (["Location Admin", "Company Admin"] : List String) := by
        simpa using hc
      rw [if_neg hmem] at hadm
      exact absurd hadm.1 (by decide)
    · intro hc
      have hmem : pyStr row.acct ∈ (["Location Admin", "Company Admin"] : List String) := by
        rcases hc with h | h <;> simp [h]
      rw [if_pos hmem]
      exact ⟨rfl, rfl⟩
  · intro hc
    have hmem : pyStr row.acct ∉ (["Location Admin", "Company Admin"] : List String) := by
      simpa using hc
    rw [h14, h15, if_neg hmem]
    exact ⟨rfl, rfl⟩

/-- Witness for C3 at the spec's end-to-end example row (Jane Doe,
Location Admin): the account-type field is "Administrator" and the
charge-number field is the row's own phone number. -/
theorem C3_subscriber_fields_witness :
    ¬ skipUserRow (UserRow.mk (some "Jane Doe") (some "5551234567") none none none
      (some "Location Admin") (some "Sales") none (some "UCaaS|Link Standard")
      none none none) ∧
    (subscriberFields "CH" "Acme" [] (fun _ _ => (none, none))
      (UserRow.mk (some "Jane Doe") (some "5551234567") none none none
        (some "Location Admin") (some "Sales") none (some "UCaaS|Link Standard")
        none none none)).getD 14 "" = "Administrator" ∧
    (subscriberFields "CH" "Acme" [] (fun _ _ => (none, none))
      (UserRow.mk (some "Jane Doe") (some "5551234567") none none none
        (some "Location Admin") (some "Sales") none (some "UCaaS|Link Standard")
        none none none)).getD 22 "" = "5551234567" := by
  have h := C3_subscriber_fields "CH" "Acme" [] (fun _ _ => (none, none))
    (UserRow.mk (some "Jane Doe") (some "5551234567") none none none
      (some "Location Admin") (some "Sales") none (some "UCaaS|Link Standard")
      none none none) (by decide)
  refine ⟨by decide, (h.2.1.mpr (Or.inl (by decide))).1, ?_⟩
  rw [h.2.2.2.1]
  decide

/-- Claim C7: for every eligible row whose resolved template is
`region ++ "_AA_Easy"` or `region ++ "_AA_Premium"`, the Subscriber
record's line-state-monitoring (16), calling-name-delivery (17) and
intra-BG-calls (26) fields are all blank regardless of other row data;
for every other eligible row they are "TRUE", the row's name, "TRUE". -/
theorem C7_auto_attendant_flags (region customer : String) (eng : List (List (Option String)))
    (rcLookup : String → String → Option String × Option String) (row : UserRow)
    (helig : ¬ skipUserRow row) :
    subscriberRecord region customer eng rcLookup row =
      some (subscriberFields region customer eng rcLookup row) ∧
    ((convert_template row.template region = region ++ "_AA_Easy" ∨
      convert_template row.template region = region ++ "_AA_Premium") →
      (subscriberFields region customer eng rcLookup row).getD 16 "" = "" ∧
      (subscriberFields region customer eng rcLookup row).getD 17 "" = "" ∧
      (subscriberFields region customer eng rcLookup row).getD 26 "" = "") ∧
    (¬ (convert_template row.template region = region ++ "_AA_Easy" ∨
        convert_template row.template region = region ++ "_AA_Premium") →
      (subscriberFields region customer eng rcLookup row).getD 16 "" = "TRUE" ∧
      (subscriberFields region customer eng rcLookup row).getD 17 "" = optStr row.name ∧
      (subscriberFields region customer eng rcLookup row).getD 26 "" = "TRUE") := by
  have hrec : subscriberRecord region customer eng rcLookup row =
      some (subscriberFields region customer eng rcLookup row) := by
    simp [subscriberRecord, helig]
  have h16 : (subscriberFields region customer eng rcLookup row).getD 16 "" =
      (if (convert_template row.template region == region ++ "_AA_Easy" ||
           convert_template row.template region == region ++ "_AA_Premium")
       then "" else "TRUE") := rfl
  have h17 : (subscriberFields region customer eng rcLookup row).getD 17 "" =
      (if (convert_template row.template region == region ++ "_AA_Easy" ||
           convert_template row.template region == region ++ "_AA_Premium")
       then "" else optStr row.name) := rfl
  have h26 : (subscriberFields region customer eng rcLookup row).getD 26 "" =
      (if (convert_template row.template region == region ++ "_AA_Easy" ||
           convert_template row.template region == region ++ "_AA_Premium")
       then "" else "TRUE") := rfl
  refine ⟨hrec, fun hc => ?_, fun hc => ?_⟩
  · have hb : (convert_template row.template region == region ++ "_AA_Easy" ||
        convert_template row.template region == region ++ "_AA_Premium") = true := by
      rcases hc with h | h <;> simp [h]
    rw [h16, h17, h26]
    simp [hb]
  · have hb : (convert_template row.template region == region ++ "_AA_Easy" ||
        convert_template row.template region == region ++ "_AA_Premium") = false := by
      simp only [Bool.or_eq_false_iff, beq_eq_false_iff_ne]
      exact ⟨fun h => hc (Or.inl h), fun h => hc (Or.inr h)⟩
    rw [h16, h17, h26]
    simp [hb]

/-- Witness for C7 at a concrete auto-attendant row ("UCaaS|Link Basic
Auto-Attendant", region "CH"): all three flag fields are blank. -/
theorem C7_auto_attendant_flags_witness :
    ¬ skipUserRow (UserRow.mk (some "Front Desk") (some "5550002222") none none none
      none none none (some "UCaaS|Link Basic Auto-Attendant") none none none) ∧
    ((subscriberFields "CH" "Acme" [] (fun _ _ => (none, none))
        (UserRow.mk (some "Front Desk") (some "5550002222") none none none
          none none none (some "UCaaS|Link Basic Auto-Attendant") none none none)).getD
        16 "" = "" ∧
      (subscriberFields "CH" "Acme" [] (fun _ _ => (none, none))
        (UserRow.mk (some "Front Desk") (some "5550002222") none none none
          none none none (some "UCaaS|Link Basic Auto-Attendant") none none none)).getD
        17 "" = "" ∧
      (subscriberFields "CH" "Acme" [] (fun _ _ => (none, none))
        (UserRow.mk (some "Front Desk") (some "5550002222") none none none
          none none none (some "UCaaS|Link Basic Auto-Attendant") none none none)).getD
        26 "" = "") := by
  have h := C7_auto_attendant_flags "CH" "Acme" [] (fun _ _ => (none, none))
    (UserRow.mk (some "Front Desk") (some "5550002222") none none none
      none none none (some "UCaaS|Link Basic Auto-Attendant") none none none) (by decide)
  exact ⟨by decide, h.2.1 (Or.inl (by decide))⟩

/-- The member-collection loop written as filter-then-map: used to state
C4 independently of the `filterMap` in `mlhgMembers`. -/
lemma mlhgMembers_eq_filter_map (users : List UserRow) (g : String) :
    mlhgMembers users g =
      (users.filter (fun u =>
        decide (pytrim (pyStr u.mlhg) = pytrim g) && u.phone.isSome)).map
        (fun u => memberToken (pyStr u.phone)) := by
  induction users with
  | nil => rfl
  | cons u us ih =>
    simp only [mlhgMembers, List.filterMap_cons, List.filter_cons] at *
    by_cases h1 : pytrim (pyStr u.mlhg) = pytrim g
    · by_cases h2 : u.phone.isSome = true
      · simp [h1, h2, ih]
      · simp [h1, h2, ih]
    · simp [h1, ih]

/-- Claim C4 counterexample: for hunt group "G" with one user row whose
membership label matches but whose phone cell is NaN, and raw
distribution label " Ring All " (with surrounding spaces), the code emits
an empty member field and the trimmed-then-rewritten algorithm
"Ring all", while the claim's reading — every label-matching row listed,
and no normalization beyond the exact "Ring All" → "Ring all" rewrite —
demands a one-token member list and the untouched label " Ring All ". -/
theorem C4_counterexample :
    ((mlhgRecord "Acme"
        [UserRow.mk none none none none none none none none none none (some "G") none]
        (HuntRow.mk (some "G") (some " Ring All ") none none)).getD []).getD 3 "" = "" ∧
    ((mlhgRecord "Acme"
        [UserRow.mk none none none none none none none none none none (some "G") none]
        (HuntRow.mk (some "G") (some " Ring All ") none none)).getD []).getD 4 ""
      = "Ring all" ∧
    String.intercalate ";" (mlhgMembersSpec
        [UserRow.mk none none none none none none none none none none (some "G") none]
        (ostr (HuntRow.mk (some "G") (some " Ring All ") none none).name))
      = memberToken "nan" ∧
    memberToken "nan" ≠ "" ∧
    distAlgSpec " Ring All " = " Ring All " ∧
    (" Ring All " : String) ≠ "Ring all" := by
  refine ⟨by decide, by decide, by decide, by decide, by decide, by decide⟩

/-- Claim C4 as amended: for every hunt-group row with a truthy name, the
MLHG record's member field (index 3) lists, in source row order, every
UserRow whose trimmed membership label equals the trimmed group name AND
whose phone cell is present, each formatted as the member token and
joined with ";"; the distribution-algorithm field (index 4) is the
NaN-to-"" stripped label with "Ring All" rewritten to "Ring all"; and
the hunt-on-no-answer field (index 5) is the literal "FALSE". -/
theorem C4_mlhg_amended (customer : String) (users : List UserRow) (h : HuntRow)
    (hname : truthy h.name = true) :
    mlhgRecord customer users h = some (pad27 ["CommandLink", customer, ostr h.name,
      String.intercalate ";" (mlhgMembers users (ostr h.name)),
      (if optTrim h.dist = "Ring All" then "Ring all" else optTrim h.dist), "FALSE"]) ∧
    ((mlhgRecord customer users h).getD []).getD 3 "" =
      String.intercalate ";"
        ((users.filter (fun u =>
            decide (pytrim (pyStr u.mlhg) = pytrim (ostr h.name)) && u.phone.isSome)).map
          (fun u => memberToken (pyStr u.phone))) ∧
    ((mlhgRecord customer users h).getD []).getD 4 "" =
      (if optTrim h.dist = "Ring All" then "Ring all" else optTrim h.dist) ∧
    ((mlhgRecord customer users h).getD []).getD 5 "" = "FALSE" := by
  have hrec : mlhgRecord customer users h = some (pad27 ["CommandLink", customer, ostr h.name,
      String.intercalate ";" (mlhgMembers users (ostr h.name)),
      (if optTrim h.dist = "Ring All" then "Ring all" else optTrim h.dist), "FALSE"]) := by
    simp [mlhgRecord, hname]
  refine ⟨hrec, ?_, ?_, ?_⟩
  · rw [hrec, ← mlhgMembers_eq_filter_map]
    rfl
  · rw [hrec]
    rfl
  · rw [hrec]
    rfl

/-- Witness for C4 as amended at the spec's end-to-end hunt-group
example: two matching members in source row order, "Ring All" rewritten. -/
theorem C4_mlhg_amended_witness :
    truthy (HuntRow.mk (some "Sales Queue") (some "Ring All") (some "5559999999")
      (some "Yes")).name = true ∧
    ((mlhgRecord "Acme"
        [UserRow.mk none (some "5551111111") none none none none none none none none
          (some "Sales Queue") none,
         UserRow.mk none (some "5552222222") none none none none none none none none
          (some "Sales Queue") none]
        (HuntRow.mk (some "Sales Queue") (some "Ring All") (some "5559999999")
          (some "Yes"))).getD []).getD 3 "" =
      memberToken "5551111111" ++ ";" ++ memberToken "5552222222" ∧
    ((mlhgRecord "Acme"
        [UserRow.mk none (some "5551111111") none none none none none none none none
          (some "Sales Queue") none,
         UserRow.mk none (some "5552222222") none none none none none none none none
          (some "Sales Queue") none]
        (HuntRow.mk (some "Sales Queue") (some "Ring All") (some "5559999999")
          (some "Yes"))).getD []).getD 4 "" = "Ring all" := by
  have h := C4_mlhg_amended "Acme"
    [UserRow.mk none (some "5551111111") none none none none none none none none
      (some "Sales Queue") none,
     UserRow.mk none (some "5552222222") none none none none none none none none
      (some "Sales Queue") none]
    (HuntRow.mk (some "Sales Queue") (some "Ring All") (some "5559999999") (some "Yes"))
    (by decide)
  refine ⟨by decide, ?_, ?_⟩
  · rw [h.2.1]
    decide
  · rw [h.2.2.1]
    decide

/-- Claim C5: when the HTTP/XML layer fails for an uncached NPA-NXX
prefix, the lookup returns `(None, None)` (no exception escapes: the
embedded `try/except` result is a total value), the derived lcc1 and
lcc2 subscriber fields are both blank, exactly one network call is
issued, and a second lookup for the same prefix hits the cache: it
returns the same blank result, leaves the cache unchanged, and issues
zero network calls. -/
theorem C5_lookup_failure_cache (fetch : String → String → FetchResult) (cache : RCCache)
    (npa nxx : String) (eng : List (List (Option String)))
    (hkey : cache.find? (fun e => e.1.1 == npa && e.1.2 == nxx) = none)
    (hfail : fetch npa nxx = FetchResult.failure) :
    (cached_lookup fetch cache npa nxx).1 = (none, none) ∧
    lcc1_of eng (cached_lookup fetch cache npa nxx).1.1 = "" ∧
    lcc2_of (cached_lookup fetch cache npa nxx).1.2 = "" ∧
    (cached_lookup fetch cache npa nxx).2.2 = 1 ∧
    cached_lookup fetch (cached_lookup fetch cache npa nxx).2.1 npa nxx =
      ((none, none), (cached_lookup fetch cache npa nxx).2.1, 0) := by
  have hl : lookup_rc_lata fetch npa nxx = (none, none) := by
    by_cases hz : npa = "" ∨ nxx = ""
    · simp [lookup_rc_lata, hz]
    · simp [lookup_rc_lata, hz, hfail]
  have hres : cached_lookup fetch cache npa nxx =
      ((none, none), ((npa, nxx), (none, none)) :: cache, 1) := by
    simp [cached_lookup, hkey, hl]
  rw [hres]
  refine ⟨rfl, rfl, rfl, rfl, ?_⟩
  have hpred : (fun (e : (String × String) × Option String × Option String) =>
      e.1.1 == npa && e.1.2 == nxx) (((npa, nxx), (none, none))) = true := by
    simp
  simp [cached_lookup, List.find?_cons_of_pos _ hpred]

/-- Witness for C5: a fetch layer that always fails, an empty cache and
the concrete prefix 555-123. -/
theorem C5_lookup_failure_cache_witness :
    (([] : RCCache).find? (fun e => e.1.1 == "555" && e.1.2 == "123") = none) ∧
    ((fun (_ _ : String) => FetchResult.failure) "555" "123" = FetchResult.failure) ∧
    ((cached_lookup (fun _ _ => FetchResult.failure) [] "555" "123").1 = (none, none) ∧
     lcc1_of [] (cached_lookup (fun _ _ => FetchResult.failure) [] "555" "123").1.1 = "" ∧
     lcc2_of (cached_lookup (fun _ _ => FetchResult.failure) [] "555" "123").1.2 = "" ∧
     (cached_lookup (fun _ _ => FetchResult.failure) [] "555" "123").2.2 = 1 ∧
     cached_lookup (fun _ _ => FetchResult.failure)
        (cached_lookup (fun _ _ => FetchResult.failure) [] "555" "123").2.1 "555" "123" =
       ((none, none),
        (cached_lookup (fun _ _ => FetchResult.failure) [] "555" "123").2.1, 0)) :=
  ⟨rfl, rfl,
   C5_lookup_failure_cache (fun _ _ => FetchResult.failure) [] "555" "123" [] rfl rfl⟩

/-- Claim C6: the Number Block section emits exactly one record per
unique phone number of the combined pool (subscriber-number range then
hunt-group-pilot range), empty strings excluded; later duplicates are
dropped, and the surviving entries are ordered by the position of their
first occurrence in the combined collection order. -/
theorem C6_number_block_dedup (customer : String) (cellsB cellsD : List (Option String)) :
    numberBlockRows customer cellsB cellsD =
      (numbersFrom cellsB cellsD).map (fun num => numberBlockRecord customer num) ∧
    (∀ n, (numbersFrom cellsB cellsD).count n =
      if n ∈ collectPool cellsB ++ collectPool cellsD ∧ n ≠ "" then 1 else 0) ∧
    (numbersFrom cellsB cellsD).Pairwise
      (fun a b => (collectPool cellsB ++ collectPool cellsD).indexOf a <
                  (collectPool cellsB ++ collectPool cellsD).indexOf b) := by
  refine ⟨rfl, ?_, ?_⟩
  · intro n
    have hmem : n ∈ numbersFrom cellsB cellsD ↔
        n ∈ collectPool cellsB ++ collectPool cellsD ∧ n ≠ "" := by
      unfold numbersFrom dedupFirst
      rw [List.mem_filter, mem_dedupFirstAux]
      simp
    have hnd : (numbersFrom cellsB cellsD).Nodup := by
      unfold numbersFrom dedupFirst
      exact (nodup_dedupFirstAux _ []).filter _
    by_cases hc : n ∈ collectPool cellsB ++ collectPool cellsD ∧ n ≠ ""
    · rw [if_pos hc]
      exact List.count_eq_one_of_mem hnd (hmem.mpr hc)
    · rw [if_neg hc]
      exact List.count_eq_zero_of_not_mem (fun hm => hc (hmem.mp hm))
  · unfold numbersFrom dedupFirst
    exact (pairwise_indexOf_dedupFirstAux _ []).filter _

/-- Claim C8: sheet resolution succeeds exactly when some workbook sheet
name equals the wanted name after normalization (lower-casing and
removing all whitespace, `_norm`); when no sheet matches, `get_sheet`
fails with an error carrying the full list of actual sheet names; and
when any of the three required sheets is missing, the run aborts with no
output produced. -/
theorem C8_sheet_resolution {α β : Type} (wb : List (String × α)) (wanted : String)
    (build : α → α → α → β) :
    ((∃ s, get_sheet wb wanted = Except.ok s) ↔ ∃ p ∈ wb, _norm p.1 = _norm wanted) ∧
    ((∀ p ∈ wb, _norm p.1 ≠ _norm wanted) →
      get_sheet wb wanted = Except.error (wanted, wb.map (fun p => p.1))) ∧
    (((∀ p ∈ wb, _norm p.1 ≠ _norm "User details") ∨
      (∀ p ∈ wb, _norm p.1 ≠ _norm "Engineering") ∨
      (∀ p ∈ wb, _norm p.1 ≠ _norm "Call flow")) →
      runMain wb build = none) := by
  refine ⟨⟨?_, ?_⟩, get_sheet_err wb wanted, ?_⟩
  · rintro ⟨s, hs⟩
    unfold get_sheet at hs
    cases hf : wb.find? (fun p => _norm p.1 == _norm wanted) with
    | none => rw [hf] at hs; cases hs
    | some p =>
      refine ⟨p, List.mem_of_find?_eq_some hf, ?_⟩
      simpa using List.find?_some hf
  · rintro ⟨p, hp, he⟩
    cases hf : wb.find? (fun q => _norm q.1 == _norm wanted) with
    | none => exact absurd he (by simpa using List.find?_eq_none.mp hf p hp)
    | some q =>
      refine ⟨q.2, ?_⟩
      unfold get_sheet
      rw [hf]
  · rintro (h | h | h)
    · have hU := get_sheet_err wb "User details" h
      have hR : resolveRequired wb =
          Except.error ("User details", wb.map (fun p => p.1)) := by
        unfold resolveRequired
        rw [hU]
        rfl
      simp [runMain, hR]
    · have hE := get_sheet_err wb "Engineering" h
      cases hu : get_sheet wb "User details" with
      | error e =>
        have hR : resolveRequired wb = Except.error e := by
          unfold resolveRequired
          rw [hu]
          rfl
        simp [runMain, hR]
      | ok u =>
        have hR : resolveRequired wb =
            Except.error ("Engineering", wb.map (fun p => p.1)) := by
          unfold resolveRequired
          rw [hu]
          show (get_sheet wb "Engineering").bind _ = _
          rw [hE]
          rfl
        simp [runMain, hR]
    · have hC := get_sheet_err wb "Call flow" h
      cases hu : get_sheet wb "User details" with
      | error e =>
        have hR : resolveRequired wb = Except.error e := by
          unfold resolveRequired
          rw [hu]
          rfl
        simp [runMain, hR]
      | ok u =>
        cases he : get_sheet wb "Engineering" with
        | error e =>
          have hR : resolveRequired wb = Except.error e := by
            unfold resolveRequired
            rw [hu]
            show (get_sheet wb "Engineering").bind _ = _
            rw [he]
            rfl
          simp [runMain, hR]
        | ok eg =>
          have hR : resolveRequired wb =
              Except.error ("Call flow", wb.map (fun p => p.1)) := by
            unfold resolveRequired
            rw [hu]
            show (get_sheet wb "Engineering").bind _ = _
            rw [he]
            show (get_sheet wb "Call flow").bind _ = _
            rw [hC]
            rfl
          simp [runMain, hR]

/-- Witness for C8 at a concrete one-sheet workbook lacking every
required sheet: resolution errors with the full sheet-name list and the
run produces no output. -/
theorem C8_sheet_resolution_witness :
    (∀ p ∈ [("Sheet1", (0 : Nat))], _norm p.1 ≠ _norm "User details") ∧
    (get_sheet [("Sheet1", (0 : Nat))] "User details" =
      Except.error ("User details", [("Sheet1", (0 : Nat))].map (fun p => p.1)) ∧
     runMain [("Sheet1", (0 : Nat))] (fun (_ _ _ : Nat) => (0 : Nat)) = none) := by
  have hm : ∀ p ∈ [("Sheet1", (0 : Nat))], _norm p.1 ≠ _norm "User details" := by decide
  have h := C8_sheet_resolution [("Sheet1", (0 : Nat))] "User details"
    (fun (_ _ _ : Nat) => (0 : Nat))
  exact ⟨hm, h.2.1 hm, h.2.2 (Or.inl hm)⟩
